import Mathlib

/-!
# Verification of the PCB defect detection backend

Shallow embedding of `aoi_backend_server.py` (class `YOLOv10AOIBackend`, the
Flask handlers) and `ensemble_scoring_explained.py` (class
`EnsemblePCBClassifier`).  Machine floats are modelled as exact rationals,
Python ints as `Nat`/`Int`, each storage directory as the list of its files'
modification times, and the external collaborators (the YOLO detector, codec
probes, the filesystem, the transcoder) as explicitly injected environment
fields recording what each external call answers.
-/

/-- Inspection status: the `"PASS"`, `"QUESTIONABLE"`, `"FAIL"` and `"ERROR"`
strings the backend puts into result records. -/
inductive Status where
  | PASS
  | QUESTIONABLE
  | FAIL
  | ERROR
deriving DecidableEq, Repr

/-- Round a rational to the nearest integer, ties to even: the semantics of
Python `round` on an exactly represented value. -/
def roundHalfEven (x : ℚ) : ℤ :=
  if x - ⌊x⌋ < 1/2 then ⌊x⌋
  else if 1/2 < x - ⌊x⌋ then ⌊x⌋ + 1
  else if ⌊x⌋ % 2 = 0 then ⌊x⌋ else ⌊x⌋ + 1

/-- Python `round(x, d)`: round to `d` decimal digits. -/
def roundTo (d : ℕ) (x : ℚ) : ℚ := (roundHalfEven (x * 10 ^ d) : ℚ) / 10 ^ d

/-- One raw detector box of `results[0].boxes`: class id (`box.cls[0]`),
confidence (`box.conf[0]`) and corner coordinates (`box.xyxy[0]`). -/
structure RawDet where
  cls : ℕ
  conf : ℚ
  x1 : ℚ
  y1 : ℚ
  x2 : ℚ
  y2 : ℚ
deriving DecidableEq, Repr

/-- `YOLOv10AOIBackend.class_names` together with the `dict.get` fallback used
at every lookup: the fixed eight-entry taxonomy, any other id becoming
`unknown_{id}`. -/
def class_name (id : ℕ) : String :=
  if id = 0 then "falsecopper"
  else if id = 1 then "missinghole"
  else if id = 2 then "mousebite"
  else if id = 3 then "opencircuit"
  else if id = 4 then "pinhole"
  else if id = 5 then "scratch"
  else if id = 6 then "shortcircuit"
  else if id = 7 then "spur"
  else "unknown_" ++ toString id

/-- The normalized defect record built by `_extract_defect_details`. -/
structure Detection where
  type : String
  confidence : ℚ
  bbox : List ℚ
  area : ℚ
deriving DecidableEq, Repr

/-- `YOLOv10AOIBackend._extract_defect_details`: one `Detection` per raw box,
confidence rounded to 3 decimals, coordinates and area rounded to 1 decimal
(the area from the unrounded coordinates). -/
def extract_defect_details (dets : List RawDet) : List Detection :=
  dets.map fun box =>
    { type := class_name box.cls
      confidence := roundTo 3 box.conf
      bbox := [roundTo 1 box.x1, roundTo 1 box.y1, roundTo 1 box.x2, roundTo 1 box.y2]
      area := roundTo 1 ((box.x2 - box.x1) * (box.y2 - box.y1)) }

/-- Python `str.title` on a space separated lower-case string. -/
def titleCase (s : String) : String :=
  String.intercalate " " ((s.splitOn " ").map String.capitalize)

/-- `YOLOv10AOIBackend._get_primary_defect`: display form of the detection
with maximum confidence, ties to the first encountered (Python `max`). -/
def get_primary_defect (defects : List Detection) : String :=
  match defects with
  | [] => "None"
  | d :: ds =>
    let primary := ds.foldl (fun acc x => if acc.confidence < x.confidence then x else acc) d
    titleCase ((primary.type).replace "_" " ")

/-! ## Image inspection (`process_pcb_image`, lines 66-147) and batch
(`inspect_batch`, lines 657-683) -/

/-- Environment of one `process_pcb_image` call: whether the detector call
raises (a `ProcessingError`, caught by the handler after the upload is
saved), the raw detections it reports otherwise, the raised exception's
message, and the two timestamp strings (`strftime` form for filenames,
`isoformat` for the record). -/
structure ImageEnv where
  fail : Bool
  dets : List RawDet
  errMsg : String
  ts : String
  nowIso : String
deriving DecidableEq, Repr

/-- Kinds of files `process_pcb_image` writes: the uploaded copy, the
annotated image, and the JSON result record. -/
inductive ImgFile where
  | upload
  | annotated
  | resultJson
deriving DecidableEq, Repr

/-- The inspection result record returned by `process_pcb_image`.  `none` in
`metrics`, `images` or `defects_detected` models the key being absent from
the returned dictionary; `error = true` models the explicit `"error": True`
flag of the exception branch. -/
structure ImageRecord where
  pcbId : String
  status : Status
  defectType : String
  timestamp : String
  metrics : Option ℕ
  images : Option (String × String)
  defects_detected : Option (List Detection)
  error : Bool
deriving DecidableEq, Repr

/-- `YOLOv10AOIBackend.process_pcb_image`: the files written and the returned
record.  A missing caller id is replaced by `PCB-` plus eight uuid hex
characters (injected as `uuid8`); on a detector failure the exception branch
returns the ERROR record without writing an annotated image or a result
JSON. -/
def process_pcb_image (pcb_id : Option String) (uuid8 : String) (env : ImageEnv) :
    List ImgFile × ImageRecord :=
  let id := pcb_id.getD ("PCB-" ++ uuid8)
  if env.fail then
    ([ImgFile.upload],
     { pcbId := id, status := Status.ERROR
       defectType := "Processing Error: " ++ env.errMsg
       timestamp := env.nowIso
       metrics := none, images := none, defects_detected := none, error := true })
  else
    let defects_found := if 0 < env.dets.length then extract_defect_details env.dets else []
    ([ImgFile.upload, ImgFile.annotated, ImgFile.resultJson],
     { pcbId := id
       status := if 0 < env.dets.length then Status.FAIL else Status.PASS
       defectType := if 0 < env.dets.length then get_primary_defect defects_found else "None"
       timestamp := env.nowIso
       metrics := some defects_found.length
       images := some (id ++ "_" ++ env.ts ++ ".jpg", id ++ "_" ++ env.ts ++ "_annotated.jpg")
       defects_detected := some defects_found
       error := false })

/-- The number of JSON result records among the written files. -/
def json_count (files : List ImgFile) : ℕ :=
  (files.filter fun f => f == ImgFile.resultJson).length

/-- One uploaded file of a batch request: its filename and the processing
environment of its inspection. -/
structure BatchFile where
  filename : String
  env : ImageEnv
deriving DecidableEq, Repr

/-- Python format `{:03d}`: decimal digits left-padded with zeros to width
at least 3. -/
def pad3 (n : ℕ) : String :=
  let s := toString n
  if s.length < 3 then String.mk (List.replicate (3 - s.length) '0') ++ s else s

/-- The `/api/inspect-batch` handler body: every file with a non-empty
filename is processed under the generated id `PCB-{i+1:03d}` from its 0-based
position `i` in the submitted list; a file with an empty filename is skipped.
The caller-supplied identifier of the request form (`caller_pcb_id`) is
accepted and ignored, exactly as the handler consults only `request.files`. -/
def inspect_batch (caller_pcb_id : Option String) (files : List BatchFile) :
    List ImageRecord :=
  files.enum.filterMap fun p =>
    if p.2.filename = "" then none
    else some (process_pcb_image (some ("PCB-" ++ pad3 (p.1 + 1))) "" p.2.env).2

/-! ## Retention sweep (`cleanup_old_files`, lines 40-64) -/

/-- The deletion cutoff of `cleanup_old_files`:
`datetime.now().timestamp() - preserve_recent_minutes * 60`. -/
def cleanup_cutoff (now : ℚ) (preserve_recent_minutes : ℤ) : ℚ :=
  now - preserve_recent_minutes * 60

/-- Whether the sweep removes a file with modification time `m`: the
`mtime < cutoff` test guarding `os.remove`. -/
def sweep_removes (now : ℚ) (w : ℤ) (m : ℚ) : Bool :=
  decide (m < cleanup_cutoff now w)

/-- The modification times surviving one sweep of `cleanup_old_files` over a
directory holding files with the listed modification times. -/
def sweep_remaining (now : ℚ) (w : ℤ) (fs : List ℚ) : List ℚ :=
  fs.filter fun m => ! sweep_removes now w m

/-- The `removed` counter of `cleanup_old_files` at the end of the sweep. -/
def sweep_removed_count (now : ℚ) (w : ℤ) (fs : List ℚ) : ℕ :=
  (fs.filter fun m => sweep_removes now w m).length

/-- The JSON body returned by the `/api/cleanup` handler `cleanup_files`. -/
structure CleanupResponse where
  status : String
  preserve_minutes : ℤ
  timestamp : String
deriving DecidableEq, Repr

/-- The `/api/cleanup` handler `cleanup_files`: reads an optional
`preserve_minutes` parameter (default 10), runs the sweep, and answers with a
status body.  Returns the response and the directory state after the sweep. -/
def cleanup_files_endpoint (preserve_param : Option ℤ) (nowIso : String)
    (now : ℚ) (fs : List ℚ) : CleanupResponse × List ℚ :=
  let preserve := preserve_param.getD 10
  ({ status := "cleaned", preserve_minutes := preserve, timestamp := nowIso },
   sweep_remaining now preserve fs)

/-! ## Ensemble scoring (`ensemble_scoring_explained.py`) -/

/-- The metric tuple consumed by `calculate_ensemble_score`. -/
structure EnsembleMetrics where
  high_conf_count : ℕ
  total_detection_count : ℕ
  avg_confidence : ℚ
  area_coverage_ratio : ℚ
deriving DecidableEq, Repr

/-- Component 1 staircase of `calculate_ensemble_score`. -/
def high_conf_score (m : EnsembleMetrics) : ℚ :=
  if 5 ≤ m.high_conf_count then 4
  else if 3 ≤ m.high_conf_count then 3
  else if 1 ≤ m.high_conf_count then 3/2
  else 0

/-- Component 2 staircase of `calculate_ensemble_score`. -/
def density_score (m : EnsembleMetrics) : ℚ :=
  if 15 ≤ m.total_detection_count then 3
  else if 8 ≤ m.total_detection_count then 2
  else if 4 ≤ m.total_detection_count then 1
  else 0

/-- Component 3 staircase of `calculate_ensemble_score`. -/
def conf_score (m : EnsembleMetrics) : ℚ :=
  if 7/10 ≤ m.avg_confidence then 5/2
  else if 1/2 ≤ m.avg_confidence then 3/2
  else if 3/10 ≤ m.avg_confidence then 1/2
  else 0

/-- Component 4 staircase of `calculate_ensemble_score`. -/
def area_score (m : EnsembleMetrics) : ℚ :=
  if 1/20 ≤ m.area_coverage_ratio then 4
  else if 1/50 ≤ m.area_coverage_ratio then 2
  else if 1/100 ≤ m.area_coverage_ratio then 1
  else 0

/-- `EnsemblePCBClassifier.calculate_ensemble_score`: the running `score`
after the four weighted components (`self.weights` is 3.0, 2.0, 1.5, 2.5). -/
def calculate_ensemble_score (m : EnsembleMetrics) : ℚ :=
  high_conf_score m * 3 + density_score m * 2 + conf_score m * (3/2) + area_score m * (5/2)

/-- The classification labels of `classify_pcb`, standing for the literal
strings `"GOOD PCB"`, `"QUESTIONABLE PCB"`, `"DEFECTIVE PCB"` and
`"SEVERELY DEFECTIVE PCB"`. -/
inductive PCBClass where
  | GOOD
  | QUESTIONABLE
  | DEFECTIVE
  | SEVERELY_DEFECTIVE
deriving DecidableEq, Repr

/-- Step 3 of `EnsemblePCBClassifier.classify_pcb`: classification and the
reported confidence from the ensemble score. -/
def classify_pcb (score : ℚ) : PCBClass × ℚ :=
  if score ≤ 2 then (PCBClass.GOOD, 19/20)
  else if score ≤ 5 then (PCBClass.QUESTIONABLE, 3/4)
  else if score ≤ 10 then (PCBClass.DEFECTIVE, 17/20)
  else (PCBClass.SEVERELY_DEFECTIVE, 19/20)

/-! ## Video pipeline (`process_pcb_video`, lines 272-592) -/

/-- Python `int()` on a rational: truncation toward zero. -/
def ratTrunc (q : ℚ) : ℤ := if 0 ≤ q then ⌊q⌋ else ⌈q⌉

/-- `frame_interval = max(1, int(fps * 0.7))` (line 359). -/
def frame_interval_of (fps : ℚ) : ℕ := (max 1 (ratTrunc (fps * (7/10)))).toNat

/-- `should_process = (frame_count - 1) % frame_interval == 0` (line 371),
with `frame_count` the 1-based index of the frame just read. -/
def should_process (frame_count fi : ℕ) : Bool := (frame_count - 1) % fi == 0

/-- `processed_frames = (total_frames + frame_interval - 1) // frame_interval`
(line 459, the backend's ceiling division). -/
def processed_frames_count (total_frames fi : ℕ) : ℕ := (total_frames + fi - 1) / fi

/-- `defect_density = frames_with_defects / processed_frames if
processed_frames > 0 else 0` (line 461). -/
def defect_density (frames_with_defects pf : ℕ) : ℚ :=
  if 0 < pf then (frames_with_defects : ℚ) / pf else 0

/-- The overall video status from the defect density (lines 468-473). -/
def density_status (d : ℚ) : Status :=
  if 3/10 < d then Status.FAIL
  else if 3/20 < d then Status.QUESTIONABLE
  else Status.PASS

/-- The per-defect-frame sub-verdict (lines 542-548):
`> 3 → FAIL`, `> 1 → QUESTIONABLE`, `else → FAIL`. -/
def frame_status (frame_defect_count : ℕ) : Status :=
  if 3 < frame_defect_count then Status.FAIL
  else if 1 < frame_defect_count then Status.QUESTIONABLE
  else Status.FAIL

/-- The `defect_frames` list of the frame loop, as (1-based frame number,
defect count) of every processed frame whose detector call reports at least
one detection.  `frames` lists, per frame read from the stream, the number of
detections the detector reports on it. -/
def defect_frames_of (frames : List ℕ) (fi : ℕ) : List (ℕ × ℕ) :=
  frames.enum.filterMap fun p =>
    if should_process (p.1 + 1) fi && !(p.2 == 0) then some (p.1 + 1, p.2) else none

/-- The `total_defects` counter: detections summed over processed frames. -/
def total_defects_of (frames : List ℕ) (fi : ℕ) : ℕ :=
  ((frames.enum.filter fun p => should_process (p.1 + 1) fi).map fun p => p.2).sum

/-- Which file the job serves: the raw fallback-codec output or the
transcoded browser MP4. -/
inductive ServedFile where
  | raw
  | browserMp4
deriving DecidableEq, Repr

/-- One per-defect-frame sub-verdict record emitted by `process_pcb_video`. -/
structure FrameVerdict where
  frameNumber : ℕ
  total_defects : ℕ
  status : Status
deriving DecidableEq, Repr

/-- The summary record of one video job (the claimed fields of
`summary_result` plus which file is served and the frame sub-verdicts). -/
structure VideoSummary where
  status : Status
  total_frames : ℕ
  processed_frames : ℕ
  frames_with_defects : ℕ
  total_defects : ℕ
  defect_density : ℚ
  frame_interval : ℕ
  served : ServedFile
  frame_results : List FrameVerdict
deriving DecidableEq, Repr

/-- Kinds of files `process_pcb_video` creates on disk (frame extracts and
result JSON files, written only after every check has passed, are not
modelled). -/
inductive VFile where
  | upload
  | outputVideo
  | browserVideo
deriving DecidableEq, Repr

/-- Environment of one `process_pcb_video` job: the stream metadata OpenCV
reports, the per-frame detection counts the detector reports, and the answers
of the external probes (writer candidates opening, the written output file
existing / re-opening / its frame count, the transcode outcome). -/
structure VideoEnv where
  streamOpens : Bool
  width : ℤ
  height : ℤ
  fps : ℚ
  totalFrames : ℕ
  frames : List ℕ
  xvidAviOpens : Bool
  mjpgAviOpens : Bool
  mjpgMp4Opens : Bool
  aviExists : Bool
  aviOpens : Bool
  aviFrameCount : ℕ
  convSuccess : Bool
  mp4Exists : Bool
  mp4Size : ℕ
  mp4FrameCount : ℕ
deriving DecidableEq, Repr

/-- The codec fallback chain (lines 313-343): index of the first of the three
writer candidates (XVID/AVI, MJPG/AVI, MJPG/MP4) that opens. -/
def choose_writer (env : VideoEnv) : Option ℕ :=
  if env.xvidAviOpens then some 0
  else if env.mjpgAviOpens then some 1
  else if env.mjpgMp4Opens then some 2
  else none

/-- `YOLOv10AOIBackend.process_pcb_video`: the files created and either the
raised exception's message or the summary record.  Mirrors the source order:
save upload, open stream, metadata guard, writer selection, frame loop,
output existence and re-open checks, transcode, density verdict, frame
sub-verdicts. -/
def process_pcb_video (env : VideoEnv) : List VFile × Except String VideoSummary :=
  if env.streamOpens then
    if env.width = 0 ∨ env.height = 0 ∨ env.fps = 0 then
      ([VFile.upload], Except.error "Invalid video properties - video may be corrupted")
    else
      match choose_writer env with
      | none =>
        ([VFile.upload], Except.error "Failed to create video writer with any supported codec")
      | some _ =>
        let fi := frame_interval_of env.fps
        let dfs := defect_frames_of env.frames fi
        if env.aviExists then
          if env.aviOpens then
            let convOk := env.convSuccess && env.mp4Exists && decide (0 < env.mp4Size)
            let pf := processed_frames_count env.totalFrames fi
            let dens := defect_density dfs.length pf
            ([VFile.upload, VFile.outputVideo]
               ++ (if convOk then [VFile.browserVideo] else []),
             Except.ok
               { status := density_status dens
                 total_frames := env.totalFrames
                 processed_frames := pf
                 frames_with_defects := dfs.length
                 total_defects := total_defects_of env.frames fi
                 defect_density := dens
                 frame_interval := fi
                 served := if convOk then ServedFile.browserMp4 else ServedFile.raw
                 frame_results := (dfs.take 20).map fun p =>
                   { frameNumber := p.1, total_defects := p.2, status := frame_status p.2 } })
          else
            ([VFile.upload, VFile.outputVideo],
             Except.error "Created video cannot be opened")
        else
          ([VFile.upload, VFile.outputVideo],
           Except.error "Failed to create output video")
  else ([VFile.upload], Except.error "Could not open video file")

/-- Whether a job result is a summary rather than an error. -/
def vjob_ok (e : Except String VideoSummary) : Bool :=
  match e with
  | Except.ok _ => true
  | Except.error _ => false

/-- The statuses of the frame sub-verdicts a job emits. -/
def emitted_frame_statuses (env : VideoEnv) : List Status :=
  match (process_pcb_video env).2 with
  | Except.ok r => r.frame_results.map fun f => f.status
  | Except.error _ => []

/-- The frame count of the file a successful job serves (the raw output's
count or the transcoded MP4's count). -/
def served_frame_count (env : VideoEnv) : Option ℕ :=
  match (process_pcb_video env).2 with
  | Except.ok r =>
    some (match r.served with
      | ServedFile.raw => env.aviFrameCount
      | ServedFile.browserMp4 => env.mp4FrameCount)
  | Except.error _ => none

/-! ## Theorems -/

/-- `max(1, int(10 * 0.7)) = 7`: the frame interval at 10 fps. -/
lemma frame_interval_ten : frame_interval_of 10 = 7 := by
  have htr : ratTrunc ((10 : ℚ) * (7/10)) = 7 := by
    unfold ratTrunc
    norm_num
  unfold frame_interval_of
  rw [htr]
  rfl

/-- The success branch of `process_pcb_video`: stream opened, metadata guard
passed, some writer candidate opened, the written output exists and
re-opens. -/
lemma process_pcb_video_ok (env : VideoEnv)
    (h1 : env.streamOpens = true)
    (h2 : ¬ (env.width = 0 ∨ env.height = 0 ∨ env.fps = 0))
    (c : ℕ) (h3 : choose_writer env = some c)
    (h4 : env.aviExists = true) (h5 : env.aviOpens = true) :
    process_pcb_video env =
      ([VFile.upload, VFile.outputVideo]
         ++ (if env.convSuccess && env.mp4Exists && decide (0 < env.mp4Size)
             then [VFile.browserVideo] else []),
       Except.ok
         { status := density_status (defect_density
             (defect_frames_of env.frames (frame_interval_of env.fps)).length
             (processed_frames_count env.totalFrames (frame_interval_of env.fps)))
           total_frames := env.totalFrames
           processed_frames := processed_frames_count env.totalFrames (frame_interval_of env.fps)
           frames_with_defects :=
             (defect_frames_of env.frames (frame_interval_of env.fps)).length
           total_defects := total_defects_of env.frames (frame_interval_of env.fps)
           defect_density := defect_density
             (defect_frames_of env.frames (frame_interval_of env.fps)).length
             (processed_frames_count env.totalFrames (frame_interval_of env.fps))
           frame_interval := frame_interval_of env.fps
           served := if env.convSuccess && env.mp4Exists && decide (0 < env.mp4Size)
             then ServedFile.browserMp4 else ServedFile.raw
           frame_results :=
             ((defect_frames_of env.frames (frame_interval_of env.fps)).take 20).map
               fun p =>
                 { frameNumber := p.1, total_defects := p.2
                   status := frame_status p.2 } }) := by
  unfold process_pcb_video
  rw [h1, if_pos rfl, if_neg h2, h3, h4, if_pos rfl, h5, if_pos rfl]

/-- The branch of `process_pcb_video` where the written output file cannot be
re-opened (line 433): the job aborts with the corresponding message. -/
lemma process_pcb_video_open_fail (env : VideoEnv)
    (h1 : env.streamOpens = true)
    (h2 : ¬ (env.width = 0 ∨ env.height = 0 ∨ env.fps = 0))
    (c : ℕ) (h3 : choose_writer env = some c)
    (h4 : env.aviExists = true) (h5 : env.aviOpens = false) :
    process_pcb_video env =
      ([VFile.upload, VFile.outputVideo],
       Except.error "Created video cannot be opened") := by
  unfold process_pcb_video
  rw [h1, if_pos rfl, if_neg h2, h3, h4, if_pos rfl, h5, if_neg (by simp)]

/-- The backend's `(total_frames + frame_interval - 1) // frame_interval` is
exactly the ceiling of `total_frames / frame_interval`. -/
lemma processed_frames_eq_ceil (t k : ℕ) (hk : 1 ≤ k) :
    (processed_frames_count t k : ℤ) = ⌈(t : ℚ) / (k : ℚ)⌉ := by
  have hk0 : (0:ℚ) < (k:ℚ) := by exact_mod_cast hk
  set pf := processed_frames_count t k with hpf
  obtain ⟨m, hm⟩ : ∃ m, m = k * pf := ⟨_, rfl⟩
  have hdm : m + (t + k - 1) % k = t + k - 1 := by
    rw [hm, hpf]
    exact Nat.div_add_mod (t + k - 1) k
  have hmod : (t + k - 1) % k < k := Nat.mod_lt _ (by omega)
  have hub : t ≤ m := by omega
  have hlb : m < t + k := by omega
  have hcast : (pf : ℚ) * (k : ℚ) = (m : ℚ) := by
    rw [hm]
    push_cast
    ring
  have hubQ : (t : ℚ) ≤ (m : ℚ) := by exact_mod_cast hub
  have hlbQ : (m : ℚ) < (t : ℚ) + (k : ℚ) := by exact_mod_cast hlb
  rw [eq_comm, Int.ceil_eq_iff]
  constructor
  · push_cast
    rw [lt_div_iff hk0]
    nlinarith [hcast, hlbQ]
  · push_cast
    rw [div_le_iff hk0]
    rw [hcast]
    exact hubQ

/-- `frame_interval_of` is always at least 1. -/
lemma one_le_frame_interval (fps : ℚ) : 1 ≤ frame_interval_of fps := by
  unfold frame_interval_of
  have h : (1:ℤ) ≤ max 1 (ratTrunc (fps * (7/10))) := le_max_left _ _
  omega

/-- C1 (density policy of the video verdict): for positive fps the frame
interval is `max(1, floor(fps * 0.7))`; a 1-based frame index `i` is
processed iff `(i-1) mod frameInterval = 0`; the backend's processed-frame
count is the ceiling of `totalFrames / frameInterval`; the density is
`framesWithDefects / processedFrames` (0 when no frame is processed); the
overall status is FAIL above density 0.30, QUESTIONABLE above 0.15 up to
0.30, PASS otherwise; and for totalFrames 100, fps 10 the interval is 7,
15 frames are processed, and 5 / 2 / 3 defect frames give FAIL / PASS /
QUESTIONABLE. -/
theorem density_policy_characterization (fps : ℚ) (hfps : 0 < fps) :
    ((frame_interval_of fps : ℤ) = max 1 ⌊fps * (7/10)⌋)
    ∧ (∀ i : ℕ, should_process i (frame_interval_of fps) = true
        ↔ (i - 1) % frame_interval_of fps = 0)
    ∧ (∀ t : ℕ, (processed_frames_count t (frame_interval_of fps) : ℤ)
        = ⌈(t : ℚ) / (frame_interval_of fps : ℚ)⌉)
    ∧ (∀ f p : ℕ, defect_density f p = if 0 < p then (f : ℚ) / p else 0)
    ∧ (∀ d : ℚ, (density_status d = Status.FAIL ↔ 3/10 < d)
        ∧ (density_status d = Status.QUESTIONABLE ↔ 3/20 < d ∧ d ≤ 3/10)
        ∧ (density_status d = Status.PASS ↔ d ≤ 3/20))
    ∧ frame_interval_of 10 = 7
    ∧ processed_frames_count 100 (frame_interval_of 10) = 15
    ∧ density_status (defect_density 5 15) = Status.FAIL
    ∧ density_status (defect_density 2 15) = Status.PASS
    ∧ density_status (defect_density 3 15) = Status.QUESTIONABLE := by
  have hfi10 : frame_interval_of 10 = 7 := by
    have htr : ratTrunc ((10 : ℚ) * (7/10)) = 7 := by
      unfold ratTrunc
      norm_num
    unfold frame_interval_of
    rw [htr]
    rfl
  have hdens : ∀ f p : ℕ, defect_density f p = if 0 < p then (f : ℚ) / p else 0 :=
    fun f p => rfl
  have hstat : ∀ d : ℚ, (density_status d = Status.FAIL ↔ 3/10 < d)
      ∧ (density_status d = Status.QUESTIONABLE ↔ 3/20 < d ∧ d ≤ 3/10)
      ∧ (density_status d = Status.PASS ↔ d ≤ 3/20) := by
    intro d
    unfold density_status
    rcases lt_trichotomy (3/10 : ℚ) d with h1 | h1 | h1
    · rw [if_pos h1]
      refine ⟨by simp [h1], ?_, ?_⟩ <;> constructor <;> intro h <;>
        first
          | (exfalso; exact Status.noConfusion h)
          | linarith [h.2]
          | linarith
    · rw [if_neg (by rw [h1]; exact lt_irrefl d), if_pos (by rw [← h1]; norm_num)]
      refine ⟨?_, ?_, ?_⟩ <;> constructor <;> intro h <;>
        first
          | (exfalso; exact Status.noConfusion h)
          | (exact ⟨by rw [← h1]; norm_num, le_of_eq h1.symm⟩)
          | rfl
          | linarith
    · rw [if_neg (by linarith)]
      by_cases h2 : (3/20 : ℚ) < d
      · rw [if_pos h2]
        refine ⟨?_, ?_, ?_⟩ <;> constructor <;> intro h <;>
          first
            | (exfalso; exact Status.noConfusion h)
            | (exact ⟨h2, le_of_lt h1⟩)
            | rfl
            | linarith
      · rw [if_neg h2]
        refine ⟨?_, ?_, ?_⟩ <;> constructor <;> intro h <;>
          first
            | (exfalso; exact Status.noConfusion h)
            | linarith [h.1, not_lt.mp h2]
            | linarith [not_lt.mp h2]
            | rfl
  refine ⟨?_, ?_, ?_, hdens, hstat, hfi10, ?_, ?_, ?_, ?_⟩
  · have hpos : 0 ≤ fps * (7/10) := by positivity
    unfold frame_interval_of ratTrunc
    rw [if_pos hpos]
    have h1 : (1:ℤ) ≤ max 1 ⌊fps * (7/10)⌋ := le_max_left _ _
    omega
  · intro i
    unfold should_process
    exact beq_iff_eq
  · intro t
    exact processed_frames_eq_ceil t _ (one_le_frame_interval fps)
  · rw [hfi10]
    rfl
  · have h : defect_density 5 15 = 1/3 := by
      unfold defect_density
      norm_num
    rw [h, ((hstat (1/3)).1).mpr (by norm_num)]
  · have h : defect_density 2 15 = 2/15 := by
      unfold defect_density
      norm_num
    rw [h, ((hstat (2/15)).2.2).mpr (by norm_num)]
  · have h : defect_density 3 15 = 1/5 := by
      unfold defect_density
      norm_num
    rw [h, ((hstat (1/5)).2.1).mpr (by norm_num)]

/-- Witness for C1 at fps 10: the hypothesis `0 < fps` holds and the concrete
density-policy facts follow by applying the theorem there. -/
theorem density_policy_witness :
    (0 : ℚ) < 10
    ∧ frame_interval_of 10 = 7
    ∧ processed_frames_count 100 (frame_interval_of 10) = 15
    ∧ density_status (defect_density 5 15) = Status.FAIL
    ∧ density_status (defect_density 2 15) = Status.PASS
    ∧ density_status (defect_density 3 15) = Status.QUESTIONABLE := by
  have h := density_policy_characterization 10 (by norm_num)
  exact ⟨by norm_num, h.2.2.2.2.2.1, h.2.2.2.2.2.2.1, h.2.2.2.2.2.2.2.1,
    h.2.2.2.2.2.2.2.2.1, h.2.2.2.2.2.2.2.2.2⟩

lemma classify_pcb_good_iff (s : ℚ) :
    classify_pcb s = (PCBClass.GOOD, 19/20) ↔ s ≤ 2 := by
  constructor
  · intro h
    unfold classify_pcb at h
    split_ifs at h with h1 h2 h3 <;> simp at h <;> exact h1
  · intro h
    unfold classify_pcb
    rw [if_pos h]

lemma classify_pcb_questionable_iff (s : ℚ) :
    classify_pcb s = (PCBClass.QUESTIONABLE, 3/4) ↔ 2 < s ∧ s ≤ 5 := by
  constructor
  · intro h
    unfold classify_pcb at h
    split_ifs at h with h1 h2 h3 <;> simp at h
    exact ⟨by linarith [not_le.mp h1], h2⟩
  · rintro ⟨ha, hb⟩
    unfold classify_pcb
    rw [if_neg (by linarith), if_pos hb]

lemma classify_pcb_defective_iff (s : ℚ) :
    classify_pcb s = (PCBClass.DEFECTIVE, 17/20) ↔ 5 < s ∧ s ≤ 10 := by
  constructor
  · intro h
    unfold classify_pcb at h
    split_ifs at h with h1 h2 h3 <;> simp at h
    exact ⟨by linarith [not_le.mp h2], h3⟩
  · rintro ⟨ha, hb⟩
    unfold classify_pcb
    rw [if_neg (by linarith), if_neg (by linarith), if_pos hb]

lemma classify_pcb_severe_iff (s : ℚ) :
    classify_pcb s = (PCBClass.SEVERELY_DEFECTIVE, 19/20) ↔ 10 < s := by
  constructor
  · intro h
    unfold classify_pcb at h
    split_ifs at h with h1 h2 h3 <;> simp at h
    linarith [not_le.mp h3]
  · intro h
    unfold classify_pcb
    rw [if_neg (by linarith), if_neg (by linarith), if_neg (by linarith)]

/-- C2: for every metrics tuple the ensemble score is the sum of the four
staircase subscores weighted 3.0, 2.0, 1.5, 2.5, and the final classification
is GOOD with reported confidence 0.95 when the score is at most 2.0,
QUESTIONABLE with 0.75 when at most 5.0, DEFECTIVE with 0.85 when at most
10.0, and SEVERELY DEFECTIVE with 0.95 otherwise; all-zero metrics score 0.0
and classify GOOD, and (highConfCount 5, totalDetectionCount 15,
avgConfidence 0.8, areaCoverageRatio 0.06) scores 31.75 and classifies
SEVERELY DEFECTIVE with confidence 0.95. -/
theorem ensemble_scoring_characterization (m : EnsembleMetrics) (s : ℚ) :
    calculate_ensemble_score m =
      high_conf_score m * 3 + density_score m * 2
        + conf_score m * (3/2) + area_score m * (5/2)
    ∧ (classify_pcb s = (PCBClass.GOOD, 19/20) ↔ s ≤ 2)
    ∧ (classify_pcb s = (PCBClass.QUESTIONABLE, 3/4) ↔ 2 < s ∧ s ≤ 5)
    ∧ (classify_pcb s = (PCBClass.DEFECTIVE, 17/20) ↔ 5 < s ∧ s ≤ 10)
    ∧ (classify_pcb s = (PCBClass.SEVERELY_DEFECTIVE, 19/20) ↔ 10 < s)
    ∧ calculate_ensemble_score ⟨0, 0, 0, 0⟩ = 0
    ∧ classify_pcb (calculate_ensemble_score ⟨0, 0, 0, 0⟩) = (PCBClass.GOOD, 19/20)
    ∧ calculate_ensemble_score ⟨5, 15, 4/5, 3/50⟩ = 127/4
    ∧ classify_pcb (calculate_ensemble_score ⟨5, 15, 4/5, 3/50⟩)
        = (PCBClass.SEVERELY_DEFECTIVE, 19/20) := by
  have hz : calculate_ensemble_score ⟨0, 0, 0, 0⟩ = 0 := by
    norm_num [calculate_ensemble_score, high_conf_score, density_score, conf_score, area_score]
  have hbig : calculate_ensemble_score ⟨5, 15, 4/5, 3/50⟩ = 127/4 := by
    norm_num [calculate_ensemble_score, high_conf_score, density_score, conf_score, area_score]
  refine ⟨rfl, classify_pcb_good_iff s, classify_pcb_questionable_iff s,
    classify_pcb_defective_iff s, classify_pcb_severe_iff s, hz, ?_, hbig, ?_⟩
  · rw [hz, (classify_pcb_good_iff 0).mpr (by norm_num)]
  · rw [hbig, (classify_pcb_severe_iff (127/4)).mpr (by norm_num)]

/-- C4: the retention sweep, at a fixed clock value, keeps exactly the files
whose modification time is not strictly older than `now` minus the window in
seconds; removed plus kept counts the whole directory; a second sweep right
after the first removes nothing; a file 5 minutes old survives a 10 minute
window and a file 15 minutes old does not. -/
theorem retention_sweep_characterization (now : ℚ) (w : ℤ) (fs : List ℚ) (m : ℚ) :
    (m ∈ sweep_remaining now w fs ↔ m ∈ fs ∧ ¬ (m < now - w * 60))
    ∧ sweep_removed_count now w fs + (sweep_remaining now w fs).length = fs.length
    ∧ sweep_removed_count now w (sweep_remaining now w fs) = 0
    ∧ sweep_remaining now 10 [now - 5 * 60] = [now - 5 * 60]
    ∧ sweep_remaining now 10 [now - 15 * 60] = []
    ∧ sweep_removed_count now 10 [now - 15 * 60] = 1 := by
  have h5 : sweep_removes now 10 (now - 5 * 60) = false := by
    simp only [sweep_removes, cleanup_cutoff, decide_eq_false_iff_not]
    push_cast
    linarith
  have h15 : sweep_removes now 10 (now - 15 * 60) = true := by
    simp only [sweep_removes, cleanup_cutoff, decide_eq_true_eq]
    push_cast
    linarith
  refine ⟨?_, ?_, ?_, ?_, ?_, ?_⟩
  · simp [sweep_remaining, List.mem_filter, sweep_removes, cleanup_cutoff]
  · have h := List.length_eq_length_filter_add (l := fs)
      (fun m => sweep_removes now w m)
    simp only [sweep_removed_count, sweep_remaining]
    omega
  · have hnil : (sweep_remaining now w fs).filter (fun m => sweep_removes now w m) = [] := by
      simp only [sweep_remaining, List.filter_filter]
      have hff : (fun m => sweep_removes now w m && ! sweep_removes now w m)
          = fun _ : ℚ => false := by
        funext x
        cases sweep_removes now w x <;> rfl
      rw [hff]
      exact List.filter_false _
    simp [sweep_removed_count, hnil]
  · simp [sweep_remaining, List.filter_cons, h5]
  · simp [sweep_remaining, List.filter_cons, h15]
  · simp [sweep_removed_count, List.filter_cons, h15]

/-- C3 (amended, per-frame sub-verdict): for every retained defect frame,
more than 3 detections give FAIL, 2 or 3 detections give QUESTIONABLE, and
exactly 1 detection falls to the unconditional FAIL fallback — the intended
1-3 QUESTIONABLE tier is unreachable only for single-detection frames. -/
theorem frame_subverdict_tiering (n : ℕ) (h : 1 ≤ n) :
    (frame_status n = Status.QUESTIONABLE ↔ n = 2 ∨ n = 3)
    ∧ (frame_status n = Status.FAIL ↔ n = 1 ∨ 4 ≤ n)
    ∧ frame_status 1 = Status.FAIL := by
  refine ⟨?_, ?_, rfl⟩
  · unfold frame_status
    split_ifs with h1 h2 <;> simp <;> omega
  · unfold frame_status
    split_ifs with h1 h2 <;> simp <;> omega

/-- Witness for C3's amended tiering at a retained frame with 2 detections. -/
theorem frame_subverdict_tiering_witness :
    1 ≤ 2 ∧ (frame_status 2 = Status.QUESTIONABLE ↔ 2 = 2 ∨ 2 = 3) :=
  ⟨by norm_num, (frame_subverdict_tiering 2 (by norm_num)).1⟩

/-- A video job whose single frame carries two detections: stream opens,
valid 100x100 at 10 fps metadata, first writer candidate opens, output file
exists and re-opens, transcode fails. -/
def envTwoDefects : VideoEnv :=
  { streamOpens := true, width := 100, height := 100, fps := 10,
    totalFrames := 1, frames := [2],
    xvidAviOpens := true, mjpgAviOpens := false, mjpgMp4Opens := false,
    aviExists := true, aviOpens := true, aviFrameCount := 1,
    convSuccess := false, mp4Exists := false, mp4Size := 0, mp4FrameCount := 0 }

/-- C3 counterexample to the claim as stated: a retained frame with two
detections is emitted with status QUESTIONABLE, not FAIL — the QUESTIONABLE
branch is reachable. -/
theorem frame_subverdict_questionable_reachable :
    emitted_frame_statuses envTwoDefects = [Status.QUESTIONABLE]
    ∧ Status.QUESTIONABLE ≠ Status.FAIL := by
  refine ⟨?_, by decide⟩
  unfold emitted_frame_statuses
  rw [process_pcb_video_ok envTwoDefects rfl (by norm_num [envTwoDefects]) 0 rfl rfl rfl]
  have hfi : frame_interval_of envTwoDefects.fps = 7 := frame_interval_ten
  rw [hfi]
  rfl

/-- A video job that reaches the encoding stage and succeeds, whose raw
output file re-opens but reports zero frames, and whose transcode fails so
the raw file is served. -/
def envZeroFrameCount : VideoEnv :=
  { streamOpens := true, width := 100, height := 100, fps := 10,
    totalFrames := 0, frames := [],
    xvidAviOpens := true, mjpgAviOpens := false, mjpgMp4Opens := false,
    aviExists := true, aviOpens := true, aviFrameCount := 0,
    convSuccess := false, mp4Exists := false, mp4Size := 0, mp4FrameCount := 0 }

/-- C5 counterexample to the claim as stated: a job whose served file reports
a frame count of zero still returns a result referencing that file — the
re-open check only requires the raw output to open, never that its frame
count is positive. -/
theorem output_verification_frame_count_not_checked :
    vjob_ok (process_pcb_video envZeroFrameCount).2 = true
    ∧ served_frame_count envZeroFrameCount = some 0 := by
  have h := process_pcb_video_ok envZeroFrameCount rfl
    (by norm_num [envZeroFrameCount]) 0 rfl rfl rfl
  constructor
  · rw [h]
    rfl
  · unfold served_frame_count
    rw [h]
    rfl

/-- C5 (amended, output verification): once a video job reaches the written
output (stream opened, metadata valid, a writer candidate opened, the output
file exists), the job succeeds exactly when the raw output file re-opens,
failure of that re-open check is fatal with the corresponding error, the
transcoded MP4 replaces the raw file as the served artifact exactly when the
transcode succeeded and the MP4 exists with positive size, and the result is
entirely independent of the frame count the re-opened file reports. -/
theorem output_verification_behavior (env : VideoEnv)
    (h1 : env.streamOpens = true)
    (h2 : ¬ (env.width = 0 ∨ env.height = 0 ∨ env.fps = 0))
    (c : ℕ) (h3 : choose_writer env = some c)
    (h4 : env.aviExists = true) :
    vjob_ok (process_pcb_video env).2 = env.aviOpens
    ∧ (env.aviOpens = false →
        (process_pcb_video env).2 = Except.error "Created video cannot be opened")
    ∧ (∀ r, (process_pcb_video env).2 = Except.ok r →
        r.served = if env.convSuccess && env.mp4Exists && decide (0 < env.mp4Size)
          then ServedFile.browserMp4 else ServedFile.raw)
    ∧ (∀ n, process_pcb_video { env with aviFrameCount := n } = process_pcb_video env) := by
  have hindep : ∀ n, process_pcb_video { env with aviFrameCount := n }
      = process_pcb_video env := fun _ => rfl
  cases h5 : env.aviOpens
  · rw [h5] at hindep
    have h := process_pcb_video_open_fail env h1 h2 c h3 h4 h5
    refine ⟨by rw [h]; rfl, fun _ => by rw [h], ?_, hindep⟩
    intro r hr
    rw [h] at hr
    exact absurd hr (by simp)
  · rw [h5] at hindep
    have h := process_pcb_video_ok env h1 h2 c h3 h4 h5
    refine ⟨by rw [h]; rfl, fun hc => absurd hc (by simp), ?_, hindep⟩
    intro r hr
    rw [h] at hr
    simp only [Except.ok.injEq] at hr
    rw [← hr]

/-- Witness for C5's amended behavior at a concrete job with every stage
hypothesis discharged. -/
theorem output_verification_witness :
    vjob_ok (process_pcb_video envZeroFrameCount).2 = envZeroFrameCount.aviOpens :=
  (output_verification_behavior envZeroFrameCount rfl
    (by norm_num [envZeroFrameCount]) 0 rfl rfl).1

/-- C7 (amended, video input validation): a job whose stream opens but whose
metadata reports fps = 0 or width = 0 or height = 0 aborts with the invalid
properties error before any frame is processed, having created only the
uploaded copy — no output video file is produced. -/
theorem video_metadata_guard (env : VideoEnv)
    (h1 : env.streamOpens = true)
    (h2 : env.width = 0 ∨ env.height = 0 ∨ env.fps = 0) :
    (process_pcb_video env).2
      = Except.error "Invalid video properties - video may be corrupted"
    ∧ (process_pcb_video env).1 = [VFile.upload] := by
  unfold process_pcb_video
  rw [h1, if_pos rfl, if_pos h2]
  exact ⟨rfl, rfl⟩

/-- A video job whose metadata reports zero fps. -/
def envZeroFps : VideoEnv :=
  { streamOpens := true, width := 100, height := 100, fps := 0,
    totalFrames := 0, frames := [],
    xvidAviOpens := true, mjpgAviOpens := false, mjpgMp4Opens := false,
    aviExists := true, aviOpens := true, aviFrameCount := 0,
    convSuccess := false, mp4Exists := false, mp4Size := 0, mp4FrameCount := 0 }

/-- Witness for C7's amended guard at a job reporting zero fps. -/
theorem video_metadata_guard_witness :
    (process_pcb_video envZeroFps).2
      = Except.error "Invalid video properties - video may be corrupted"
    ∧ (process_pcb_video envZeroFps).1 = [VFile.upload] :=
  video_metadata_guard envZeroFps rfl (Or.inr (Or.inr rfl))

/-- A video job whose metadata reports a negative fps (and otherwise valid
dimensions): the equality-with-zero guard does not reject it. -/
def envNegativeFps : VideoEnv :=
  { streamOpens := true, width := 100, height := 100, fps := -1,
    totalFrames := 0, frames := [],
    xvidAviOpens := true, mjpgAviOpens := false, mjpgMp4Opens := false,
    aviExists := true, aviOpens := true, aviFrameCount := 0,
    convSuccess := false, mp4Exists := false, mp4Size := 0, mp4FrameCount := 0 }

/-- C7 counterexample to the claim as stated: a job whose metadata reports
fps = -1 (so fps ≤ 0) is not aborted — it runs to a successful result and an
output video file is produced. -/
theorem negative_fps_not_rejected :
    envNegativeFps.fps < 0
    ∧ vjob_ok (process_pcb_video envNegativeFps).2 = true
    ∧ VFile.outputVideo ∈ (process_pcb_video envNegativeFps).1 := by
  have h := process_pcb_video_ok envNegativeFps rfl
    (by norm_num [envNegativeFps]) 0 rfl rfl rfl
  refine ⟨by norm_num [envNegativeFps], by rw [h]; rfl, ?_⟩
  rw [h]
  simp

/-- `roundHalfEven` is within one half of its argument. -/
lemma abs_sub_roundHalfEven_le (x : ℚ) : |x - (roundHalfEven x : ℚ)| ≤ 1/2 := by
  have h0 : (⌊x⌋ : ℚ) ≤ x := Int.floor_le x
  have h1 : x < ⌊x⌋ + 1 := Int.lt_floor_add_one x
  unfold roundHalfEven
  split_ifs with ha hb hc
  · rw [abs_of_nonneg (by linarith)]
    linarith
  · push_cast
    rw [abs_of_nonpos (by linarith)]
    linarith
  · have hx : x - ⌊x⌋ = 1/2 := le_antisymm (le_of_not_lt hb) (le_of_not_lt ha)
    rw [abs_of_nonneg (by linarith)]
    linarith
  · have hx : x - ⌊x⌋ = 1/2 := le_antisymm (le_of_not_lt hb) (le_of_not_lt ha)
    push_cast
    rw [abs_of_nonpos (by linarith)]
    linarith

/-- `roundTo d` is within half of the last kept decimal digit. -/
lemma abs_sub_roundTo_le (d : ℕ) (x : ℚ) : |x - roundTo d x| ≤ 1 / (2 * 10 ^ d) := by
  have h10 : (0:ℚ) < 10 ^ d := by positivity
  have h := abs_sub_roundHalfEven_le (x * 10 ^ d)
  have key : x - roundTo d x
      = (x * 10 ^ d - (roundHalfEven (x * 10 ^ d) : ℚ)) / 10 ^ d := by
    unfold roundTo
    field_simp
  rw [key, abs_div, abs_of_pos h10, div_le_iff₀ h10]
  calc |x * 10 ^ d - (roundHalfEven (x * 10 ^ d) : ℚ)| ≤ 1/2 := h
    _ = 1 / (2 * 10 ^ d) * 10 ^ d := by
        field_simp
  
/-- C6 (DetectionNormalizer): normalization maps every raw box to a record
whose type is the taxonomy name for class ids 0-7 and `unknown_{id}` for any
other id (a total function, never a failure), whose confidence is the raw
confidence rounded to 3 decimals, and whose bbox coordinates and area are
rounded to 1 decimal; the rounding functions are genuine decimal roundings
(within half of the last kept digit). -/
theorem detection_normalizer_characterization (id : ℕ) (h8 : 8 ≤ id)
    (b : RawDet) (dets : List RawDet) (q : ℚ) :
    extract_defect_details dets = dets.map (fun box =>
      { type := class_name box.cls
        confidence := roundTo 3 box.conf
        bbox := [roundTo 1 box.x1, roundTo 1 box.y1, roundTo 1 box.x2, roundTo 1 box.y2]
        area := roundTo 1 ((box.x2 - box.x1) * (box.y2 - box.y1)) })
    ∧ (class_name 0 = "falsecopper" ∧ class_name 1 = "missinghole"
        ∧ class_name 2 = "mousebite" ∧ class_name 3 = "opencircuit"
        ∧ class_name 4 = "pinhole" ∧ class_name 5 = "scratch"
        ∧ class_name 6 = "shortcircuit" ∧ class_name 7 = "spur")
    ∧ class_name id = "unknown_" ++ toString id
    ∧ extract_defect_details [b] =
        [{ type := class_name b.cls
           confidence := roundTo 3 b.conf
           bbox := [roundTo 1 b.x1, roundTo 1 b.y1, roundTo 1 b.x2, roundTo 1 b.y2]
           area := roundTo 1 ((b.x2 - b.x1) * (b.y2 - b.y1)) }]
    ∧ |q - roundTo 3 q| ≤ 1 / 2000
    ∧ |q - roundTo 1 q| ≤ 1 / 20 := by
  refine ⟨rfl, ⟨rfl, rfl, rfl, rfl, rfl, rfl, rfl, rfl⟩, ?_, rfl, ?_, ?_⟩
  · unfold class_name
    split_ifs with a b c d e f g h9 <;> first | rfl | omega
  · have h := abs_sub_roundTo_le 3 q
    norm_num at h
    norm_num
    exact h
  · have h := abs_sub_roundTo_le 1 q
    norm_num at h
    norm_num
    exact h

/-- Witness for C6 at class id 8 with a concrete raw box. -/
theorem detection_normalizer_witness :
    8 ≤ 8 ∧ class_name 8 = "unknown_" ++ toString 8 :=
  ⟨le_refl 8,
   (detection_normalizer_characterization 8 (le_refl 8) ⟨8, 0, 0, 0, 0, 0⟩ [] 0).2.2.1⟩

/-- C8 (amended, result-record persistence): a successful image inspection
writes exactly one JSON result record and returns a record with identifier,
status, defectType, timestamp, metrics and media references and no error
flag; an inspection whose detector call raises writes no JSON record and
returns a well-formed ERROR record with an explicit error flag and no
metrics or media fields — the exception never escapes as such. -/
theorem image_result_persistence (pcb_id : Option String) (uuid8 : String)
    (env : ImageEnv) :
    json_count (process_pcb_image pcb_id uuid8 env).1 = (if env.fail then 0 else 1)
    ∧ (process_pcb_image pcb_id uuid8 env).2.error = env.fail
    ∧ (process_pcb_image pcb_id uuid8 env).2.status
        = (if env.fail then Status.ERROR
           else if 0 < env.dets.length then Status.FAIL else Status.PASS)
    ∧ (process_pcb_image pcb_id uuid8 env).2.pcbId = pcb_id.getD ("PCB-" ++ uuid8)
    ∧ (process_pcb_image pcb_id uuid8 env).2.timestamp = env.nowIso
    ∧ (process_pcb_image pcb_id uuid8 env).2.metrics
        = (if env.fail then none
           else some (if 0 < env.dets.length
             then extract_defect_details env.dets else []).length)
    ∧ (process_pcb_image pcb_id uuid8 env).2.images
        = (if env.fail then none
           else some (pcb_id.getD ("PCB-" ++ uuid8) ++ "_" ++ env.ts ++ ".jpg",
               pcb_id.getD ("PCB-" ++ uuid8) ++ "_" ++ env.ts ++ "_annotated.jpg")) := by
  cases hf : env.fail <;>
    simp [process_pcb_image, json_count, hf]

/-- An image inspection whose detector call raises. -/
def envImageFailure : ImageEnv :=
  { fail := true, dets := [], errMsg := "boxes", ts := "20250101_000000",
    nowIso := "2025-01-01T00:00:00" }

/-- C8 counterexample to the claim as stated: an inspection ending in status
ERROR persists zero JSON result records (not exactly one), and its returned
record carries no metrics mapping and no media references. -/
theorem error_result_not_persisted :
    json_count (process_pcb_image none "AB12CD34" envImageFailure).1 = 0
    ∧ (process_pcb_image none "AB12CD34" envImageFailure).2.error = true
    ∧ (process_pcb_image none "AB12CD34" envImageFailure).2.status = Status.ERROR
    ∧ (process_pcb_image none "AB12CD34" envImageFailure).2.metrics = none
    ∧ (process_pcb_image none "AB12CD34" envImageFailure).2.images = none :=
  ⟨rfl, rfl, rfl, rfl, rfl⟩

/-- C9 (amended, retention trigger): the cleanup endpoint accepts an integer
minutes parameter, uses the default window of 10 minutes when invoked with
no argument, applies the sweep with the effective window, and returns a
status acknowledgment (status, effective window, timestamp) that does not
carry the count of removed files — the count is only logged. -/
theorem cleanup_endpoint_behavior (p : ℤ) (nowIso : String) (now : ℚ)
    (fs fs2 : List ℚ) :
    (cleanup_files_endpoint (some p) nowIso now fs).1
      = { status := "cleaned", preserve_minutes := p, timestamp := nowIso }
    ∧ (cleanup_files_endpoint none nowIso now fs).1
      = { status := "cleaned", preserve_minutes := 10, timestamp := nowIso }
    ∧ (cleanup_files_endpoint (some p) nowIso now fs).2 = sweep_remaining now p fs
    ∧ (cleanup_files_endpoint none nowIso now fs).2 = sweep_remaining now 10 fs
    ∧ (cleanup_files_endpoint (some p) nowIso now fs).1
      = (cleanup_files_endpoint (some p) nowIso now fs2).1 :=
  ⟨rfl, rfl, rfl, rfl, rfl⟩

/-- C9 counterexample to the claim as stated: two sweeps that remove 0 and 2
files return identical values from the trigger, so the trigger's return value
is not the count of files removed. -/
theorem cleanup_endpoint_no_removed_count :
    (cleanup_files_endpoint none "T" 0 []).1
      = (cleanup_files_endpoint none "T" 0 [-900, -901]).1
    ∧ sweep_removed_count 0 10 [] = 0
    ∧ sweep_removed_count 0 10 [-900, -901] = 2 := by
  have h1 : sweep_removes 0 10 (-900) = true := by
    simp only [sweep_removes, cleanup_cutoff, decide_eq_true_eq]
    norm_num
  have h2 : sweep_removes 0 10 (-901) = true := by
    simp only [sweep_removes, cleanup_cutoff, decide_eq_true_eq]
    norm_num
  refine ⟨rfl, rfl, ?_⟩
  simp [sweep_removed_count, List.filter_cons, h1, h2]

/-- The id of a record produced under an explicitly supplied identifier. -/
lemma process_pcb_image_pcbId (s u : String) (env : ImageEnv) :
    (process_pcb_image (some s) u env).2.pcbId = s := by
  cases hf : env.fail <;> simp [process_pcb_image, hf]

/-- C10 (batch identifier assignment): the records of a batch carry exactly
the generated ids `PCB-` plus the 1-based position zero-padded to three
digits, in submission order, with empty-filename files skipped while still
consuming their position; the caller-supplied identifier is never consulted;
and a file at position `i` (0-based) with a non-empty filename yields a
record with id `PCB-{i+1:03d}`. -/
theorem batch_identifier_assignment (files : List BatchFile) (a b : Option String)
    (i : ℕ) (h : i < files.length) :
    ((inspect_batch a files).map (fun r => r.pcbId)
      = files.enum.filterMap (fun p =>
          if p.2.filename = "" then none else some ("PCB-" ++ pad3 (p.1 + 1))))
    ∧ inspect_batch a files = inspect_batch b files
    ∧ (files[i].filename ≠ "" →
        ("PCB-" ++ pad3 (i + 1)) ∈ (inspect_batch a files).map (fun r => r.pcbId))
    ∧ pad3 1 = "001" ∧ pad3 12 = "012" ∧ pad3 123 = "123" ∧ pad3 1000 = "1000" := by
  have hmap : (inspect_batch a files).map (fun r => r.pcbId)
      = files.enum.filterMap (fun p =>
          if p.2.filename = "" then none else some ("PCB-" ++ pad3 (p.1 + 1))) := by
    unfold inspect_batch
    rw [List.map_filterMap]
    congr 1
    funext p
    by_cases hp : p.2.filename = ""
    · simp [hp]
    · simp [hp, process_pcb_image_pcbId]
  refine ⟨hmap, rfl, ?_, rfl, rfl, rfl, rfl⟩
  intro hne
  rw [hmap, List.mem_filterMap]
  refine ⟨(i, files[i]), ?_, by simp [hne]⟩
  have hlen : i < files.enum.length := by simpa using h
  have hget : files.enum[i] = (i, files[i]) := by simp
  rw [← hget]
  exact List.getElem_mem hlen

/-- Witness for C10 at a concrete two-file batch whose first file has an
empty filename: the second file's record takes id `PCB-002`. -/
theorem batch_identifier_witness :
    (1 : ℕ) < 2
    ∧ (("PCB-" ++ pad3 2) ∈ (inspect_batch none
        [{ filename := "", env := envImageFailure },
         { filename := "b.jpg", env := envImageFailure }]).map (fun r => r.pcbId)) := by
  have h := (batch_identifier_assignment
    [{ filename := "", env := envImageFailure },
     { filename := "b.jpg", env := envImageFailure }] none none 1 (by norm_num)).2.2.1
  exact ⟨by norm_num, h (by simp)⟩
